import Mathlib

/-!
Shallow embedding of the `backend-python` bookstore service
(`src/backend-python/src/...`) and proofs about the behaviour its
specification claims.  Pure Python helpers become Lean functions on
`String`/`List Char`; the database session becomes an explicit list-of-rows
state threaded through each endpoint body; a raised `HTTPException` becomes
an error value carrying the HTTP status code and the `detail` string, and an
exception that escapes every handler becomes its own constructor.
-/

namespace Bookstore

/-- `needle` occurs as a contiguous run inside `hay` (checked position by
position). -/
def listIsInfix (needle : List Char) : List Char → Bool
  | [] => needle.isEmpty
  | c :: rest => needle.isPrefixOf (c :: rest) || listIsInfix needle rest

/-- Python's `needle in hay` substring test, over the character lists of the
two strings. -/
def strContains (hay needle : String) : Bool :=
  listIsInfix needle.data hay.data

/-- Python's `str.lower()` (character-wise, ASCII). -/
def toLowerStr (s : String) : String :=
  String.mk (s.data.map Char.toLower)

/-- Python's `str.upper()` (character-wise, ASCII). -/
def toUpperStr (s : String) : String :=
  String.mk (s.data.map Char.toUpper)

/-- Python's `str.isdigit()` restricted to ASCII: true iff the string is
nonempty and every character is a decimal digit (`"".isdigit()` is `False`
in Python, hence the nonemptiness conjunct). -/
def pyIsdigit (l : List Char) : Bool :=
  !l.isEmpty && l.all Char.isDigit

/-- `v.replace('-', '').replace(' ', '')` from the two ISBN validators:
dropping every dash and space character. -/
def cleanChars (v : String) : List Char :=
  v.data.filter (fun c => !(c == '-' || c == ' '))

/-- The `cleaned` local of `validate_isbn`:
`v.replace('-', '').replace(' ', '').upper()`. -/
def cleanedUpper (v : String) : List Char :=
  (cleanChars v).map Char.toUpper

/-- `validate_isbn` from `src/schemas/validators.py` (the `str` case; the
`None` case of the Python `Optional` passes `None` through and is not
modelled).  Cleans the string, **uppercases** it, and validates the
ISBN-10/ISBN-13 shape, returning the cleaned uppercased string. -/
def validate_isbn (v : String) : Except String String :=
  if !((cleanedUpper v).length == 10 || (cleanedUpper v).length == 13) then
    .error ("ISBN must be 10 or 13 characters after removing dashes/spaces. Got "
      ++ toString (cleanedUpper v).length ++ " characters.")
  else if !(pyIsdigit (cleanedUpper v).dropLast
      && (((cleanedUpper v).getLastD ' ').isDigit
          || ((cleanedUpper v).length == 10 && (cleanedUpper v).getLastD ' ' == 'X'))) then
    .error "ISBN must contain only digits (ISBN-10 may end with X)"
  else
    .ok (String.mk (cleanedUpper v))

/-- `BookBase.normalize_isbn` from `src/schemas/book.py` (the same body is
repeated in `BookUpdate.normalize_isbn`).  Unlike `validate_isbn` it does
**not** uppercase the cleaned string: the trailing-`X` test uppercases only
the compared character (`cleaned[-1].upper() == 'X'`) and the function
returns `cleaned` as is. -/
def normalize_isbn (v : String) : Except String String :=
  if !((cleanChars v).length == 10 || (cleanChars v).length == 13) then
    .error ("ISBN must be 10 or 13 characters after removing dashes/spaces. Got "
      ++ toString (cleanChars v).length ++ " characters.")
  else if !(pyIsdigit (cleanChars v).dropLast
      && (((cleanChars v).getLastD ' ').isDigit
          || ((cleanChars v).length == 10 && ((cleanChars v).getLastD ' ').toUpper == 'X'))) then
    .error "ISBN must contain only digits (ISBN-10 may end with X)"
  else
    .ok (String.mk (cleanChars v))

/-- Modelled from the spec: `validate_password_strength` is imported by
`src/schemas/user.py` from `src.schemas.validators`, but the copy of
`src/schemas/validators.py` under `src/` contains only `validate_isbn` — the
definition of `validate_password_strength` is missing from the sources.
Spec 4.1: it "fails with `WeakPassword` unless all of: length ≥ 8 and ≤ 100,
contains ≥1 lowercase letter, ≥1 uppercase letter, ≥1 digit, ≥1
non-alphanumeric character". -/
def validate_password_strength (v : String) : Except String String :=
  if decide (8 ≤ v.length) && decide (v.length ≤ 100)
      && v.data.any Char.isLower && v.data.any Char.isUpper
      && v.data.any Char.isDigit && v.data.any (fun c => !c.isAlphanum) then
    .ok v
  else
    .error "WeakPassword"

/-- The shape condition stated by the spec for a cleaned (and already
uppercased) ISBN string: length 10 or 13, every character before the last a
decimal digit, and the last character a digit or — only at length 10 — the
letter `X`. -/
def isbnShapeClaim (l : List Char) : Bool :=
  (l.length == 10 || l.length == 13)
    && (l.dropLast.all Char.isDigit
      && ((l.getLastD ' ').isDigit || (l.length == 10 && l.getLastD ' ' == 'X')))

/-- The shape condition actually enforced by `BookBase.normalize_isbn` on the
cleaned but *not* uppercased string: as `isbnShapeClaim`, except that the
trailing character is compared after uppercasing it, so a trailing lowercase
`x` is also accepted. -/
def isbnShapeLoose (l : List Char) : Bool :=
  (l.length == 10 || l.length == 13)
    && (l.dropLast.all Char.isDigit
      && ((l.getLastD ' ').isDigit || (l.length == 10 && (l.getLastD ' ').toUpper == 'X')))

@[simp] lemma isOk_error (e : ε) : (Except.error e : Except ε α).isOk = false := rfl

@[simp] lemma isOk_ok (a : α) : (Except.ok a : Except ε α).isOk = true := rfl

lemma dropLast_isEmpty_false_of_len {l : List Char}
    (h : (l.length == 10 || l.length == 13) = true) :
    l.dropLast.isEmpty = false := by
  have hlen : l.length = 10 ∨ l.length = 13 := by
    rcases Bool.or_eq_true_iff.mp h with h' | h' <;>
      [left; right] <;> exact eq_of_beq h'
  have hne : l.dropLast.length ≠ 0 := by
    rw [List.length_dropLast]; omega
  cases e : l.dropLast.isEmpty
  · rfl
  · exact absurd (congrArg List.length (List.isEmpty_iff.mp e)) (by simpa using hne)

/-- `validate_isbn` succeeds exactly on strings whose cleaned, uppercased
form satisfies the spec's shape condition. -/
lemma validate_isbn_isOk_eq (v : String) :
    (validate_isbn v).isOk = isbnShapeClaim (cleanedUpper v) := by
  unfold validate_isbn isbnShapeClaim
  cases hlen : ((cleanedUpper v).length == 10 || (cleanedUpper v).length == 13)
  · simp [hlen]
  · have hne := dropLast_isEmpty_false_of_len hlen
    have hpy : pyIsdigit (cleanedUpper v).dropLast
        = (cleanedUpper v).dropLast.all Char.isDigit := by
      unfold pyIsdigit; rw [hne, Bool.not_false, Bool.true_and]
    rw [hpy]
    cases hrest : ((cleanedUpper v).dropLast.all Char.isDigit
        && (((cleanedUpper v).getLastD ' ').isDigit
            || ((cleanedUpper v).length == 10 && (cleanedUpper v).getLastD ' ' == 'X'))) <;>
      simp

/-- `BookBase.normalize_isbn` succeeds exactly on strings whose cleaned
(non-uppercased) form satisfies the loose shape condition. -/
lemma normalize_isbn_isOk_eq (v : String) :
    (normalize_isbn v).isOk = isbnShapeLoose (cleanChars v) := by
  unfold normalize_isbn isbnShapeLoose
  cases hlen : ((cleanChars v).length == 10 || (cleanChars v).length == 13)
  · simp [hlen]
  · have hne := dropLast_isEmpty_false_of_len hlen
    have hpy : pyIsdigit (cleanChars v).dropLast
        = (cleanChars v).dropLast.all Char.isDigit := by
      unfold pyIsdigit; rw [hne, Bool.not_false, Bool.true_and]
    rw [hpy]
    cases hrest : ((cleanChars v).dropLast.all Char.isDigit
        && (((cleanChars v).getLastD ' ').isDigit
            || ((cleanChars v).length == 10 && ((cleanChars v).getLastD ' ').toUpper == 'X'))) <;>
      simp

lemma validate_isbn_ok_shape (v : String) (s : String)
    (h : validate_isbn v = .ok s) :
    s = String.mk (cleanedUpper v) := by
  unfold validate_isbn at h
  split at h
  · exact absurd h (by simp)
  · split at h
    · exact absurd h (by simp)
    · exact (Except.ok.inj h).symm

lemma normalize_isbn_ok_shape (v : String) (s : String)
    (h : normalize_isbn v = .ok s) :
    s = String.mk (cleanChars v) := by
  unfold normalize_isbn at h
  split at h
  · exact absurd h (by simp)
  · split at h
    · exact absurd h (by simp)
    · exact (Except.ok.inj h).symm

/-- Claim C8, counterexample: the claim says ISBN normalization uppercases
remaining letters, so a lowercase trailing `x` would be "accepted and
uppercased in the result"; but `BookBase.normalize_isbn` — the validator the
book endpoints actually run — accepts `"0-306-40615-x"` and returns
`"030640615x"` with the `x` still lowercase. -/
theorem c8_lowercase_x_not_uppercased :
    normalize_isbn "0-306-40615-x" = .ok "030640615x"
    ∧ ("030640615x" : String) ≠ "030640615X" :=
  ⟨rfl, by decide⟩

/-- Claim C8, amended: `validate_isbn` (`src/schemas/validators.py`) strips
dashes/spaces, uppercases, succeeds exactly on the 10/13-digit shape with a
trailing `X` legal only at length 10, maps `"0-306-40615-X"` to
`"030640615X"` and uppercases a lowercase trailing `x`; the schema validator
`BookBase.normalize_isbn` (`src/schemas/book.py`), which the book endpoints
use, enforces the same shape except that it also reads a trailing lowercase
`x` as the check digit, and returns the cleaned string *without*
uppercasing. -/
theorem c8_isbn_normalization :
    (∀ v : String, (validate_isbn v).isOk = isbnShapeClaim (cleanedUpper v))
    ∧ (∀ v s : String, validate_isbn v = .ok s → s = String.mk (cleanedUpper v))
    ∧ validate_isbn "0-306-40615-X" = .ok "030640615X"
    ∧ validate_isbn "0-306-40615-x" = .ok "030640615X"
    ∧ (∀ v : String, (normalize_isbn v).isOk = isbnShapeLoose (cleanChars v))
    ∧ (∀ v s : String, normalize_isbn v = .ok s → s = String.mk (cleanChars v)) :=
  ⟨validate_isbn_isOk_eq, validate_isbn_ok_shape, rfl, rfl,
    normalize_isbn_isOk_eq, normalize_isbn_ok_shape⟩

/-- Closed instance of `c8_isbn_normalization`: its hypothesis-bearing
conjuncts applied at `"978-0-12-345678-9"`. -/
theorem c8_isbn_normalization_witness :
    ("9780123456789" : String) = String.mk (cleanedUpper "978-0-12-345678-9")
    ∧ ("9780123456789" : String) = String.mk (cleanChars "978-0-12-345678-9") :=
  ⟨c8_isbn_normalization.2.1 "978-0-12-345678-9" "9780123456789" rfl,
    c8_isbn_normalization.2.2.2.2.2 "978-0-12-345678-9" "9780123456789" rfl⟩

/-- Claim C9: password-strength validation (modelled from the spec, since
`validate_password_strength` is absent from the `src/` sources) succeeds
exactly when the password has length between 8 and 100 and contains a
lowercase letter, an uppercase letter, a digit and a non-alphanumeric
character; the exact string `"TestPassword123!"` passes. -/
theorem c9_password_strength :
    (∀ s : String, (validate_password_strength s).isOk = true ↔
      (8 ≤ s.length ∧ s.length ≤ 100
        ∧ (∃ c ∈ s.data, c.isLower = true) ∧ (∃ c ∈ s.data, c.isUpper = true)
        ∧ (∃ c ∈ s.data, c.isDigit = true) ∧ (∃ c ∈ s.data, c.isAlphanum = false)))
    ∧ validate_password_strength "TestPassword123!" = .ok "TestPassword123!" := by
  refine ⟨fun s => ?_, rfl⟩
  have hb : (validate_password_strength s).isOk
      = (decide (8 ≤ s.length) && decide (s.length ≤ 100)
        && s.data.any Char.isLower && s.data.any Char.isUpper
        && s.data.any Char.isDigit && s.data.any (fun c => !c.isAlphanum)) := by
    unfold validate_password_strength
    split
    · next h => exact (isOk_ok s).trans h.symm
    · next h => exact (isOk_error "WeakPassword").trans (Bool.eq_false_iff.mpr h).symm
  rw [hb]
  simp only [Bool.and_eq_true, decide_eq_true_eq, List.any_eq_true,
    Bool.not_eq_true', and_assoc]

/-! ### Data model (`src/models/user.py`, `src/models/book.py`)

A database session becomes an explicit list of rows.  `created_at`
timestamps are not modelled (no claim mentions them); `published_date` is
kept as an opaque string. -/

/-- `UserRole` from `src/models/user.py`. -/
inductive Role where
  | user
  | admin
deriving Repr, DecidableEq

/-- A row of the `users` table. -/
structure User where
  id : Nat
  email : String
  hashed_password : String
  is_active : Bool
  role : Role
deriving Repr, DecidableEq

/-- A row of the `books` table.  `created_by` is a nullable foreign key. -/
structure Book where
  id : Nat
  title : String
  author : String
  isbn : String
  published_date : String
  description : Option String
  created_by : Option Nat
deriving Repr, DecidableEq

/-- The outcome of one endpoint call: either a success value together with
the database state after commit, or a raised `HTTPException` with its status
code and `detail` string, together with the (rolled-back, hence unchanged)
database state. -/
inductive Api (σ : Type) (α : Type) where
  | ok (st : σ) (val : α)
  | err (st : σ) (status : Nat) (detail : String)
deriving Repr, DecidableEq

/-- The HTTP status code of an outcome (FastAPI success codes vary per
route; every route modelled here that succeeds returns 200). -/
def Api.statusCode : Api σ α → Nat
  | .ok _ _ => 200
  | .err _ s _ => s

/-! ### Token verification (`src/core/auth.py`) -/

/-- The decoded JWT payload as far as `verify_token` reads it:
`payload.get("sub")` and `payload.get("user_id")`, each possibly absent. -/
structure Payload where
  sub : Option String
  user_id : Option Int
deriving Repr, DecidableEq

/-- Outcome of `jwt.decode(token, SECRET_KEY, algorithms=[ALGORITHM])`: a
payload, or a `JWTError` (invalid signature, expired `exp`, malformed
token). -/
inductive DecodeResult where
  | ok (p : Payload)
  | jwtError
deriving Repr, DecidableEq

/-- `TokenData` from `src/schemas/user.py`: both fields are required
(`Field(...)`), so pydantic rejects `user_id=None`. -/
structure TokenData where
  email : String
  user_id : Int
deriving Repr, DecidableEq

/-- Outcome of `verify_token`.  `credentialsException` is the 401
`HTTPException` ("Could not validate credentials"); `validationError` is a
pydantic `ValidationError` raised by `TokenData(email=..., user_id=None)` —
it is *not* a `JWTError`, so the `except JWTError` clause does not catch it
and it escapes `verify_token` (and `get_current_user`, and the app, which
registers no handler for it: the request ends as an internal server error,
not a 401). -/
inductive VerifyResult where
  | tokenData (td : TokenData)
  | credentialsException
  | validationError
deriving Repr, DecidableEq

/-- `verify_token` from `src/core/auth.py`. -/
def verify_token (d : DecodeResult) : VerifyResult :=
  match d with
  | .jwtError => .credentialsException
  | .ok p =>
    match p.sub with
    | none => .credentialsException
    | some email =>
      match p.user_id with
      | none => .validationError
      | some uid => .tokenData ⟨email, uid⟩

/-- Claim C1: for a token whose signature is valid and unexpired
(`DecodeResult.ok`), whose payload carries a subject email but no
`user_id`, `verify_token` never returns a `TokenData`; but instead of the
claimed 401 invalid-credentials failure it raises an uncaught pydantic
`ValidationError` (an internal server error).  The repository's own test
`test_token_without_user_id_returns_401` expects 401 here, so this is a bug
in `verify_token`, which builds `TokenData(email=email, user_id=None)`
inside a `try` block that catches only `JWTError`. -/
theorem c1_token_missing_user_id :
    verify_token (.ok ⟨some "test@example.com", none⟩) = .validationError
    ∧ verify_token (.ok ⟨some "test@example.com", none⟩) ≠ .credentialsException
    ∧ (∀ (sub : Option String) (td : TokenData),
        verify_token (.ok ⟨sub, none⟩) ≠ .tokenData td) := by
  refine ⟨rfl, by decide, fun sub td => ?_⟩
  cases sub <;> simp [verify_token]

/-! ### User management (`src/api/v1/endpoints/users.py`) -/

/-- `PATCH /users/.../role` (`update_user_role`).  The `get_admin_user`
dependency runs first (403 unless the requester is an admin); then the
target is looked up by id (404 if absent); demoting an admin to `user`
first counts the admins and fails 400 when at most one exists; otherwise
the role is written and committed. -/
def apply_role_update (store : List User) (user_id : Nat) (newRole : Role) :
    List User :=
  store.map (fun u => if u.id == user_id then { u with role := newRole } else u)

def update_user_role (store : List User) (requester : User) (user_id : Nat)
    (newRole : Role) : Api (List User) User :=
  if requester.role != Role.admin then
    .err store 403 "Not enough permissions. Admin role required."
  else
    match store.find? (fun u => u.id == user_id) with
    | none => .err store 404 ("User with ID " ++ toString user_id ++ " not found")
    | some user =>
      if user.role == Role.admin && newRole == Role.user then
        if (store.filter (fun u => u.role == Role.admin)).length ≤ 1 then
          .err store 400 "Cannot demote the last admin user. Promote another user to admin first."
        else
          .ok (apply_role_update store user_id newRole) { user with role := newRole }
      else
        .ok (apply_role_update store user_id newRole) { user with role := newRole }

/-- `GET /users` (`list_users`): admin-only, `limit = min(limit, 100)`,
then `offset(skip).limit(limit)` over the users table. -/
def list_users (store : List User) (requester : User) (skip limit : Nat) :
    Api (List User) (List User) :=
  if requester.role != Role.admin then
    .err store 403 "Not enough permissions. Admin role required."
  else
    .ok store ((store.drop skip).take (min limit 100))

/-- The user list carried by a successful `list_users` outcome (empty on an
error outcome). -/
def Api.usersOf : Api (List User) (List User) → List User
  | .ok _ v => v
  | .err _ _ _ => []

lemma map_role_id_of_no_match (user_id : Nat) (newRole : Role) (l : List User)
    (h : ∀ v ∈ l, (v.id == user_id) = false) :
    l.map (fun u => if u.id == user_id then { u with role := newRole } else u) = l := by
  induction l with
  | nil => rfl
  | cons v rest ih =>
    simp only [List.map_cons, h v (List.mem_cons_self v rest), if_neg, List.cons.injEq,
      Bool.false_eq_true, reduceIte, true_and]
    exact ih (fun w hw => h w (List.mem_cons_of_mem v hw))

/-- Demoting the user found by `find?` removes exactly one admin from the
count, provided ids are unique and the target is an admin. -/
lemma demote_admin_count (user_id : Nat) (store : List User) (target : User)
    (hfind : store.find? (fun u => u.id == user_id) = some target)
    (hnodup : (store.map User.id).Nodup)
    (htarget : target.role = Role.admin) :
    ((store.map (fun u => if u.id == user_id then { u with role := Role.user } else u)).filter
        (fun u => u.role == Role.admin)).length + 1
      = (store.filter (fun u => u.role == Role.admin)).length := by
  induction store with
  | nil => simp at hfind
  | cons u rest ih =>
    rw [List.map_cons, List.nodup_cons] at hnodup
    by_cases hu : (u.id == user_id) = true
    · have hue : target = u := by
        simp only [List.find?_cons, hu] at hfind
        exact (Option.some.inj hfind).symm
    
      have hrest : ∀ v ∈ rest, (v.id == user_id) = false := by
        intro v hv
        cases hvb : (v.id == user_id)
        · rfl
        · exfalso
          apply hnodup.1
          have hiv : u.id = v.id := by rw [eq_of_beq hu, eq_of_beq hvb]
          rw [hiv]
          exact List.mem_map_of_mem User.id hv
      have hadm : (u.role == Role.admin) = true := by
        rw [← hue, htarget]; rfl
      have hdem : (({ u with role := Role.user } : User).role == Role.admin) = false := rfl
      simp only [List.map_cons, map_role_id_of_no_match _ _ _ hrest, hu, if_true,
        List.filter_cons, hadm, hdem, Bool.false_eq_true, reduceIte, List.length_cons]
    · have hu' : (u.id == user_id) = false := by
        cases hvb : (u.id == user_id)
        · rfl
        · exact absurd hvb hu
      have hfind' : rest.find? (fun u => u.id == user_id) = some target := by
        simpa only [List.find?_cons, hu'] using hfind
      have hrec := ih hfind' hnodup.2
      cases hadm : (u.role == Role.admin) <;>
        simp only [List.map_cons, hu', List.filter_cons, hadm, reduceIte,
          Bool.false_eq_true, List.length_cons] <;>
        omega

/-- Claim C2: under an admin requester, with unique user ids, demoting a
user who is an admin fails with 400 ("Cannot demote the last admin user…")
and leaves the store untouched when at most one admin exists; when at least
two admins exist the demotion succeeds and at least one admin remains (the
admin count drops by exactly one). -/
theorem c2_last_admin_protected (store : List User) (requester : User)
    (user_id : Nat) (target : User)
    (hreq : requester.role = Role.admin)
    (hnodup : (store.map User.id).Nodup)
    (hfind : store.find? (fun u => u.id == user_id) = some target)
    (htarget : target.role = Role.admin) :
    ((store.filter (fun u => u.role == Role.admin)).length ≤ 1 →
      update_user_role store requester user_id Role.user
        = .err store 400 "Cannot demote the last admin user. Promote another user to admin first.")
    ∧ (2 ≤ (store.filter (fun u => u.role == Role.admin)).length →
      update_user_role store requester user_id Role.user
          = .ok (apply_role_update store user_id Role.user) { target with role := Role.user }
        ∧ ((apply_role_update store user_id Role.user).filter
              (fun u => u.role == Role.admin)).length
            = (store.filter (fun u => u.role == Role.admin)).length - 1
        ∧ 1 ≤ ((apply_role_update store user_id Role.user).filter
              (fun u => u.role == Role.admin)).length) := by
  have hcount := demote_admin_count user_id store target hfind hnodup htarget
  have hguard : (requester.role != Role.admin) = false := by
    rw [hreq]; rfl
  have htadm : (target.role == Role.admin && Role.user == Role.user) = true := by
    rw [htarget]; rfl
  rw [show (store.map (fun u => if u.id == user_id then { u with role := Role.user } else u))
      = apply_role_update store user_id Role.user from rfl] at hcount
  constructor
  · intro hle
    unfold update_user_role
    rw [hguard, hfind]
    simp only [htadm, Bool.false_eq_true, reduceIte]
    rw [if_pos hle]
  · intro hge
    unfold update_user_role
    rw [hguard, hfind]
    simp only [htadm, Bool.false_eq_true, reduceIte]
    rw [if_neg (by omega)]
    exact ⟨rfl, by omega, by omega⟩

/-- Closed instance of `c2_last_admin_protected`: in a two-user store whose
only admin is user 1, the admin demoting themselves is refused with 400. -/
theorem c2_last_admin_protected_witness :
    update_user_role
        [⟨1, "admin@example.com", "h1", true, Role.admin⟩,
         ⟨2, "user@example.com", "h2", true, Role.user⟩]
        ⟨1, "admin@example.com", "h1", true, Role.admin⟩ 1 Role.user
      = .err
          [⟨1, "admin@example.com", "h1", true, Role.admin⟩,
           ⟨2, "user@example.com", "h2", true, Role.user⟩]
          400 "Cannot demote the last admin user. Promote another user to admin first." :=
  (c2_last_admin_protected
      [⟨1, "admin@example.com", "h1", true, Role.admin⟩,
       ⟨2, "user@example.com", "h2", true, Role.user⟩]
      ⟨1, "admin@example.com", "h1", true, Role.admin⟩ 1
      ⟨1, "admin@example.com", "h1", true, Role.admin⟩
      rfl (by decide) rfl rfl).1 (by decide)

/-- Claim C10: `list_users` never returns more than 100 users, whatever
`skip` and `limit` are requested, and any requested limit of at least 100
behaves exactly like `limit = 100` (the endpoint clamps
`limit = min(limit, 100)` before querying). -/
theorem c10_list_users_limit_clamp (store : List User) (requester : User)
    (skip limit : Nat) :
    ((list_users store requester skip limit).usersOf.length ≤ 100)
    ∧ (∀ extra : Nat,
        list_users store requester skip (100 + extra) = list_users store requester skip 100) := by
  constructor
  · unfold list_users
    split
    · simp [Api.usersOf]
    · simp only [Api.usersOf, List.length_take]
      omega
  · intro extra
    unfold list_users
    have hmin : min (100 + extra) 100 = min 100 100 := by omega
    rw [hmin]

/-! ### Registration and profile (`src/api/v1/endpoints/auth.py`) -/

/-- `UserCreate` from `src/schemas/user.py`: the registration request body.
It declares exactly two fields, `email` and `password` — there is **no**
`role` field (a client-supplied `"role"` key is an extra input that pydantic
ignores and does not store). -/
structure UserCreate where
  email : String
  password : String
deriving Repr, DecidableEq

/-- Outcome of `POST /register`. -/
inductive RegisterResult where
  /-- 201: a user row was created and committed. -/
  | created (store : List User) (u : User)
  /-- 400 `HTTPException`: "User with email … already exists". -/
  | emailExists (detail : String)
  /-- `AttributeError` escaping the handler: the body evaluates
  `user.role`, but `UserCreate` has no `role` attribute; pydantic models
  raise `AttributeError` for undeclared attributes, no handler catches it,
  and the request dies before `db.add` is reached. -/
  | attributeError
deriving Repr, DecidableEq

/-- `register_user` from `src/api/v1/endpoints/auth.py`: checks for an
existing user with the same (already normalized) email, then builds
`User(email=…, hashed_password=…, role=user.role, is_active=True)` — and
`user.role` raises `AttributeError` because `UserCreate` declares only
`email` and `password`. -/
def register_user (store : List User) (user : UserCreate) : RegisterResult :=
  if store.any (fun u => u.email == user.email) then
    .emailExists ("User with email " ++ user.email ++ " already exists")
  else
    .attributeError

/-- Claim C3: the claim (and the repository's own test
`test_register_forces_user_role`) says registration succeeds with the role
forced to `user`; but `register_user` evaluates `user.role` on a
`UserCreate` that has no `role` field, so every registration attempt with a
fresh email raises an uncaught `AttributeError` (an internal server error)
and **no** user is ever created — in particular the concrete request
`{"email": "admin@example.com", "password": "TestPassword123!", "role":
"admin"}` against an empty store. -/
theorem c3_register_attribute_error :
    register_user [] ⟨"admin@example.com", "TestPassword123!"⟩ = .attributeError
    ∧ (∀ (store : List User) (req : UserCreate) (st : List User) (u : User),
        register_user store req ≠ .created st u) := by
  refine ⟨rfl, fun store req st u h => ?_⟩
  unfold register_user at h
  split at h <;> simp at h

/-- `UserUpdate` from `src/schemas/user.py`: the `PUT /me` request body.
`none` models an unset field (`model_dump(exclude_unset=True)` drops it). -/
structure UserUpdate where
  email : Option String
  password : Option String
  is_active : Option Bool
  current_password : Option String
deriving Repr, DecidableEq

/-- The field-assignment loop of `update_user_profile`: set each supplied
column, hashing a supplied password first.  (`current_password`, when
supplied, is written by `setattr` to a transient non-column attribute of the
row object; it is never persisted and never verified, so it does not appear
here.) -/
def applyProfileUpdate (hashPw : String → String) (cu : User) (patch : UserUpdate) : User :=
  { cu with
    email := patch.email.getD cu.email,
    hashed_password :=
      match patch.password with
      | some p => hashPw p
      | none => cu.hashed_password,
    is_active := patch.is_active.getD cu.is_active }

/-- `update_user_profile` (`PUT /me`) from `src/api/v1/endpoints/auth.py`:
if a (truthy) new email differs from the current one and another user
already has it, fail 400; otherwise apply all supplied fields and commit.
No current-password verification of any kind appears in the body. -/
def update_user_profile (hashPw : String → String) (store : List User)
    (current_user : User) (patch : UserUpdate) : Api (List User) User :=
  match patch.email with
  | some e =>
    if e != "" && e != current_user.email && store.any (fun u => u.email == e) then
      .err store 400 ("Email " ++ e ++ " already in use")
    else
      .ok (store.map (fun u => if u.id == current_user.id
            then applyProfileUpdate hashPw current_user patch else u))
        (applyProfileUpdate hashPw current_user patch)
  | none =>
    .ok (store.map (fun u => if u.id == current_user.id
          then applyProfileUpdate hashPw current_user patch else u))
      (applyProfileUpdate hashPw current_user patch)

/-- Claim C5: the claim (with the spec and the repository's tests
`test_update_password_requires_current_password` and
`test_update_user_profile_email_with_wrong_password`) demands that an
email/password change verify `current_password` and fail with
`InvalidCurrentPassword` otherwise; but `update_user_profile` never reads
`current_password`: its outcome is identical whatever value (or absence)
is supplied, and a concrete password change with no `current_password` at
all succeeds with 200 and rewrites the stored hash. -/
theorem c5_profile_update_ignores_current_password :
    (∀ (hashPw : String → String) (store : List User) (cu : User)
       (e p : Option String) (a : Option Bool) (c₁ c₂ : Option String),
        update_user_profile hashPw store cu ⟨e, p, a, c₁⟩
          = update_user_profile hashPw store cu ⟨e, p, a, c₂⟩)
    ∧ (∀ hashPw : String → String,
        update_user_profile hashPw
            [⟨1, "alice@example.com", "oldhash", true, Role.user⟩]
            ⟨1, "alice@example.com", "oldhash", true, Role.user⟩
            ⟨none, some "NewStrongPassword123!", none, none⟩
          = .ok [⟨1, "alice@example.com", hashPw "NewStrongPassword123!", true, Role.user⟩]
              ⟨1, "alice@example.com", hashPw "NewStrongPassword123!", true, Role.user⟩) := by
  constructor
  · intro hashPw store cu e p a c₁ c₂
    cases e <;> rfl
  · intro hashPw
    unfold update_user_profile
    simp [applyProfileUpdate]

/-! ### Books (`src/api/v1/endpoints/books.py`) -/

/-- `BookCreate` from `src/schemas/book.py`, after field validation: the
`isbn` field already went through `BookBase.normalize_isbn`. -/
structure BookCreate where
  title : String
  author : String
  isbn : String
  published_date : String
  description : Option String
deriving Repr, DecidableEq

/-- `BookUpdate` from `src/schemas/book.py`: every field optional, `none`
meaning unset (dropped by `model_dump(exclude_unset=True)`); a supplied
`isbn` already went through `BookUpdate.normalize_isbn`. -/
structure BookUpdate where
  title : Option String
  author : Option String
  isbn : Option String
  published_date : Option String
  description : Option String
deriving Repr, DecidableEq

/-- The field-assignment loop of `update_book`: only supplied fields are
applied, untouched fields keep their prior values. -/
def applyBookUpdate (b : Book) (patch : BookUpdate) : Book :=
  { b with
    title := patch.title.getD b.title,
    author := patch.author.getD b.author,
    isbn := patch.isbn.getD b.isbn,
    published_date := patch.published_date.getD b.published_date,
    description :=
      match patch.description with
      | some d => some d
      | none => b.description }

/-- The text of the `IntegrityError` SQLite raises when the UNIQUE index on
`books.isbn` is violated (the configuration the repository's test suite
runs against). -/
def sqliteUniqueIsbnMsg : String := "UNIQUE constraint failed: books.isbn"

/-- Python's `str(None)`, for the f-string `f"Book with ISBN {book.isbn} …"`
when the patch did not supply an ISBN. -/
def optionStr : Option String → String
  | some s => s
  | none => "None"

/-- `PUT /books/...` (`update_book`): 404 if the id is absent; 403 unless
the requester is an admin or the book's recorded creator; otherwise apply
the patch and commit — the commit raises `IntegrityError` when another row
already holds the same ISBN string, which the handler catches, classifying
the engine message (mentions `isbn` plus `unique`/`duplicate`) into a 400
duplicate-ISBN response, with rollback either way. -/
def update_book (store : List Book) (requester : User) (book_id : Nat)
    (book : BookUpdate) : Api (List Book) Book :=
  match store.find? (fun b => b.id == book_id) with
  | none => .err store 404 ("Book with id " ++ toString book_id ++ " not found")
  | some db_book =>
    if requester.role != Role.admin && !(db_book.created_by == some requester.id) then
      .err store 403 "You can only update your own books"
    else
      if store.any (fun b => !(b.id == db_book.id)
          && b.isbn == (applyBookUpdate db_book book).isbn) then
        if strContains (toLowerStr sqliteUniqueIsbnMsg) "isbn"
            && (strContains (toLowerStr sqliteUniqueIsbnMsg) "unique"
              || strContains (toLowerStr sqliteUniqueIsbnMsg) "duplicate") then
          .err store 400 ("Book with ISBN " ++ optionStr book.isbn ++ " already exists")
        else
          .err store 400 "Database integrity constraint violated"
      else
        .ok (store.map (fun b => if b.id == db_book.id then applyBookUpdate db_book book else b))
          (applyBookUpdate db_book book)

/-- `POST /books` (`create_book`): builds the row with
`created_by = current_user.id` and inserts it with **no duplicate
pre-check**; the only duplicate detection is the `except IntegrityError`
handler around the commit, which fires when a row with the identical ISBN
string is already stored and turns the engine message into a 400
duplicate-ISBN response after rollback. -/
def create_book (store : List Book) (current_user : User) (next_id : Nat)
    (book : BookCreate) : Api (List Book) Book :=
  if store.any (fun b => b.isbn == book.isbn) then
    if strContains (toLowerStr sqliteUniqueIsbnMsg) "isbn"
        && (strContains (toLowerStr sqliteUniqueIsbnMsg) "unique"
          || strContains (toLowerStr sqliteUniqueIsbnMsg) "duplicate") then
      .err store 400 ("Book with ISBN " ++ book.isbn ++ " already exists")
    else
      .err store 400 "Database integrity constraint violated"
  else
    .ok (store ++ [⟨next_id, book.title, book.author, book.isbn,
          book.published_date, book.description, some current_user.id⟩])
      ⟨next_id, book.title, book.author, book.isbn,
        book.published_date, book.description, some current_user.id⟩

/-- The `POST /books` pipeline as a client sees it: pydantic first runs
`BookBase.normalize_isbn` over the raw ISBN (a 422 validation error on
failure, modelled as `Except.error`), then the endpoint body runs. -/
def create_book_endpoint (store : List Book) (current_user : User) (next_id : Nat)
    (title author rawIsbn published_date : String) (description : Option String) :
    Except String (Api (List Book) Book) :=
  match normalize_isbn rawIsbn with
  | .error m => .error m
  | .ok isbn =>
    .ok (create_book store current_user next_id
      ⟨title, author, isbn, published_date, description⟩)

/-- Claim C4: book update returns 404 when no book has the given id;
otherwise it is permitted (does not fail 403) exactly when the requester is
an admin or the book's creator, and any other requester gets 403 with the
store unchanged. -/
theorem c4_update_book_authorization (store : List Book) (requester : User)
    (book_id : Nat) (patch : BookUpdate) :
    (store.find? (fun b => b.id == book_id) = none →
      update_book store requester book_id patch
        = .err store 404 ("Book with id " ++ toString book_id ++ " not found"))
    ∧ (∀ db_book, store.find? (fun b => b.id == book_id) = some db_book →
        (¬(requester.role = Role.admin ∨ db_book.created_by = some requester.id) →
          update_book store requester book_id patch
            = .err store 403 "You can only update your own books")
        ∧ ((update_book store requester book_id patch).statusCode ≠ 403
            ↔ (requester.role = Role.admin ∨ db_book.created_by = some requester.id))) := by
  constructor
  · intro hnone
    unfold update_book
    rw [hnone]
  · intro db_book hfind
    by_cases hA : requester.role = Role.admin ∨ db_book.created_by = some requester.id
    · have hb : (requester.role != Role.admin
          && !(db_book.created_by == some requester.id)) = false := by
        rcases hA with h | h <;> simp [h]
      have hne : (update_book store requester book_id patch).statusCode ≠ 403 := by
        unfold update_book
        rw [hfind]
        simp only [hb, Bool.false_eq_true, reduceIte]
        split
        · split <;> simp [Api.statusCode]
        · simp [Api.statusCode]
      exact ⟨fun hno => absurd hA hno, iff_of_true hne hA⟩
    · have h1 : requester.role ≠ Role.admin := fun h => hA (Or.inl h)
      have h2 : db_book.created_by ≠ some requester.id := fun h => hA (Or.inr h)
      have hb : (requester.role != Role.admin
          && !(db_book.created_by == some requester.id)) = true := by
        simp only [Bool.and_eq_true, bne_iff_ne, Bool.not_eq_true', beq_eq_false_iff_ne, ne_eq]
        exact ⟨h1, h2⟩
      have herr : update_book store requester book_id patch
          = .err store 403 "You can only update your own books" := by
        unfold update_book
        rw [hfind]
        simp only [hb, reduceIte]
      refine ⟨fun _ => herr, iff_of_false ?_ hA⟩
      rw [herr]
      exact fun h => h rfl

/-- Closed instance of `c4_update_book_authorization`: a non-admin
non-creator asking to update book 1 is refused with 403 and the store is
unchanged. -/
theorem c4_update_book_authorization_witness :
    update_book [⟨1, "T", "A", "9780123456789", "2020-01-01", none, some 1⟩]
        ⟨2, "eve@example.com", "h", true, Role.user⟩ 1 ⟨some "X", none, none, none, none⟩
      = .err [⟨1, "T", "A", "9780123456789", "2020-01-01", none, some 1⟩]
          403 "You can only update your own books" :=
  ((c4_update_book_authorization
      [⟨1, "T", "A", "9780123456789", "2020-01-01", none, some 1⟩]
      ⟨2, "eve@example.com", "h", true, Role.user⟩ 1
      ⟨some "X", none, none, none, none⟩).2
    ⟨1, "T", "A", "9780123456789", "2020-01-01", none, some 1⟩ rfl).1 (by decide)

/-- Claim C6, counterexample: the claim says creation fails `DuplicateIsbn`
when a pre-check finds an existing book with the same *normalized* ISBN
(normalization, per spec 4.1 and the glossary, uppercases — as
`validate_isbn` does).  But `create_book` performs no pre-check at all, and
the storage UNIQUE constraint compares the stored strings exactly: with
`"030640615X"` already stored, creating `"0-306-40615-x"` — which
`BookBase.normalize_isbn` accepts as `"030640615x"`, the same ISBN up to
case, with the identical `validate_isbn` normal form — *succeeds* and
persists a second book instead of failing `DuplicateIsbn`. -/
theorem c6_case_variant_duplicate_accepted :
    create_book_endpoint
        [⟨1, "Calculus", "Spivak", "030640615X", "1994-01-01", none, some 1⟩]
        ⟨2, "bob@example.com", "h", true, Role.user⟩ 2
        "Calculus 2" "Spivak" "0-306-40615-x" "1995-01-01" none
      = .ok (.ok
          [⟨1, "Calculus", "Spivak", "030640615X", "1994-01-01", none, some 1⟩,
           ⟨2, "Calculus 2", "Spivak", "030640615x", "1995-01-01", none, some 2⟩]
          ⟨2, "Calculus 2", "Spivak", "030640615x", "1995-01-01", none, some 2⟩)
    ∧ validate_isbn "030640615x" = validate_isbn "030640615X" :=
  ⟨rfl, rfl⟩

/-- Claim C6, amended: `create_book` performs no pre-check; a duplicate
ISBN is detected only when the insert violates the storage UNIQUE
constraint — an exact, case-sensitive match between the new and a stored
ISBN string — in which case the caught `IntegrityError` yields a 400
"Book with ISBN … already exists" response and the store is unchanged
(rollback); with no exact match the book is inserted. -/
theorem c6_duplicate_isbn_constraint_only (store : List Book) (u : User)
    (next_id : Nat) (book : BookCreate) :
    (store.any (fun b => b.isbn == book.isbn) = true →
      create_book store u next_id book
        = .err store 400 ("Book with ISBN " ++ book.isbn ++ " already exists"))
    ∧ (store.any (fun b => b.isbn == book.isbn) = false →
      create_book store u next_id book
        = .ok (store ++ [⟨next_id, book.title, book.author, book.isbn,
              book.published_date, book.description, some u.id⟩])
          ⟨next_id, book.title, book.author, book.isbn,
            book.published_date, book.description, some u.id⟩) := by
  have hmsg : (strContains (toLowerStr sqliteUniqueIsbnMsg) "isbn"
      && (strContains (toLowerStr sqliteUniqueIsbnMsg) "unique"
        || strContains (toLowerStr sqliteUniqueIsbnMsg) "duplicate")) = true := by decide
  constructor
  · intro h
    unfold create_book
    rw [h, if_pos rfl]
    rw [hmsg, if_pos rfl]
  · intro h
    unfold create_book
    rw [h]
    simp only [Bool.false_eq_true, reduceIte]

/-- Closed instance of `c6_duplicate_isbn_constraint_only`: an exact
duplicate of the stored ISBN string is refused with the 400 duplicate
message and nothing is persisted. -/
theorem c6_duplicate_isbn_constraint_only_witness :
    create_book
        [⟨1, "Calculus", "Spivak", "030640615X", "1994-01-01", none, some 1⟩]
        ⟨2, "bob@example.com", "h", true, Role.user⟩ 2
        ⟨"Calculus 2", "Spivak", "030640615X", "1995-01-01", none⟩
      = .err [⟨1, "Calculus", "Spivak", "030640615X", "1994-01-01", none, some 1⟩]
          400 "Book with ISBN 030640615X already exists" :=
  (c6_duplicate_isbn_constraint_only
      [⟨1, "Calculus", "Spivak", "030640615X", "1994-01-01", none, some 1⟩]
      ⟨2, "bob@example.com", "h", true, Role.user⟩ 2
      ⟨"Calculus 2", "Spivak", "030640615X", "1995-01-01", none⟩).1 rfl

/-! ### Error translation (`src/core/exceptions.py`) -/

/-- The dictionary `parse_integrity_error` returns. -/
structure ErrorInfo where
  type : String
  message : String
  status_code : Nat
  original_message : String
deriving Repr, DecidableEq

/-- The suffix of `l` right after the first occurrence of `marker`
(`none` when `marker` never occurs). -/
def afterMarker (marker : List Char) : List Char → Option (List Char)
  | [] => if marker.isEmpty then some [] else none
  | c :: rest =>
    if marker.isPrefixOf (c :: rest) then some ((c :: rest).drop marker.length)
    else afterMarker marker rest

/-- The `re.search(r'column "([^"]+)"', error_message)` capture of the
not-null branch, approximated at the first occurrence of the literal
`column "` (the regex would scan further occurrences if the first is not
followed by `[^"]+"`; no claim depends on this branch). -/
def extractColumn (raw : String) : Option String :=
  match afterMarker ("column \x22").data raw.data with
  | none => none
  | some tail =>
    if (tail.takeWhile (fun c => c != '"')).isEmpty then none
    else if (tail.drop (tail.takeWhile (fun c => c != '"')).length).isEmpty then none
    else some (String.mk (tail.takeWhile (fun c => c != '"')))

/-- `parse_integrity_error` from `src/core/exceptions.py`, over the raw
engine message `str(exc.orig)`.  Classification happens on the lowercased
message; the caller-facing `message` fields are fixed strings, and the raw
text is kept only in `original_message` (which the handler logs
server-side). -/
def parse_integrity_error (raw : String) : ErrorInfo :=
  if strContains (toLowerStr raw) "unique constraint"
      || strContains (toLowerStr raw) "duplicate key" then
    if strContains (toLowerStr raw) "isbn" then
      ⟨"duplicate_isbn", "A book with this ISBN already exists", 409, raw⟩
    else if strContains (toLowerStr raw) "email" then
      ⟨"duplicate_email", "This email is already registered", 409, raw⟩
    else
      ⟨"duplicate_resource", "This resource already exists in the database", 409, raw⟩
  else if strContains (toLowerStr raw) "foreign key constraint"
      || strContains (toLowerStr raw) "violates foreign key" then
    if strContains (toLowerStr raw) "still referenced"
        || strContains (toLowerStr raw) "on delete" then
      ⟨"foreign_key_referenced",
        "Cannot delete this resource because it is referenced by other records", 409, raw⟩
    else
      ⟨"foreign_key_violation", "Referenced resource does not exist", 400, raw⟩
  else if strContains (toLowerStr raw) "not null constraint"
      || strContains (toLowerStr raw) "null value" then
    match (if strContains (toLowerStr raw) "column" then extractColumn raw else none) with
    | some f =>
      ⟨"missing_required_field", "Required field \x27" ++ f ++ "\x27 is missing", 400, raw⟩
    | none =>
      ⟨"missing_required_field", "Required field is missing", 400, raw⟩
  else if strContains (toLowerStr raw) "check constraint" then
    ⟨"check_constraint_violation",
      "Data validation failed: value does not meet required criteria", 400, raw⟩
  else
    ⟨"integrity_error", "Database integrity constraint violated", 400, raw⟩

/-- Claim C7: for every raw engine message classified as a unique
violation, `parse_integrity_error` returns status 409 and keeps the raw
text only in `original_message` — the caller-facing `message` is one of
three fixed strings; a message mentioning `isbn` yields
`duplicate_isbn`/"A book with this ISBN already exists", one mentioning
`email` (and not `isbn`, which the code tests first) yields
`duplicate_email`/"This email is already registered", and any other yields
the generic `duplicate_resource`. -/
theorem c7_unique_violation_translation (raw : String)
    (huniq : (strContains (toLowerStr raw) "unique constraint"
      || strContains (toLowerStr raw) "duplicate key") = true) :
    (parse_integrity_error raw).original_message = raw
    ∧ (parse_integrity_error raw).status_code = 409
    ∧ (strContains (toLowerStr raw) "isbn" = true →
        (parse_integrity_error raw).type = "duplicate_isbn"
        ∧ (parse_integrity_error raw).message = "A book with this ISBN already exists")
    ∧ (strContains (toLowerStr raw) "isbn" = false →
        strContains (toLowerStr raw) "email" = true →
        (parse_integrity_error raw).type = "duplicate_email"
        ∧ (parse_integrity_error raw).message = "This email is already registered")
    ∧ (strContains (toLowerStr raw) "isbn" = false →
        strContains (toLowerStr raw) "email" = false →
        (parse_integrity_error raw).type = "duplicate_resource"
        ∧ (parse_integrity_error raw).message = "This resource already exists in the database")
    ∧ ((parse_integrity_error raw).message = "A book with this ISBN already exists"
        ∨ (parse_integrity_error raw).message = "This email is already registered"
        ∨ (parse_integrity_error raw).message = "This resource already exists in the database") := by
  unfold parse_integrity_error
  rw [huniq]
  cases hisbn : strContains (toLowerStr raw) "isbn" <;>
    cases hemail : strContains (toLowerStr raw) "email" <;>
    simp [hisbn, hemail]

/-- Closed instance of `c7_unique_violation_translation`: the postgres-style
duplicate-key message for the ISBN index is classified as `duplicate_isbn`
with the fixed caller-facing message and status 409. -/
theorem c7_unique_violation_translation_witness :
    (parse_integrity_error
        "duplicate key value violates unique constraint \x22ix_books_isbn\x22").type
      = "duplicate_isbn"
    ∧ (parse_integrity_error
        "duplicate key value violates unique constraint \x22ix_books_isbn\x22").message
      = "A book with this ISBN already exists"
    ∧ (parse_integrity_error
        "duplicate key value violates unique constraint \x22ix_books_isbn\x22").status_code
      = 409 := by
  have h := c7_unique_violation_translation
    "duplicate key value violates unique constraint \x22ix_books_isbn\x22" (by decide)
  exact ⟨(h.2.2.1 (by decide)).1, (h.2.2.1 (by decide)).2, h.2.1⟩

end Bookstore

